import Mathlib

/-!
Shallow embedding of the gamecard storage module of nxdumptool
(src/source/gamecard.c, src/unnamed/part_000, src/unnamed/part_001,
src/include/tasks/data_transfer_task.hpp).

Machine integers (u64/u32/u8) are modelled as `Nat` with explicit
`% 2^64` reductions wherever the C code performs arithmetic that can
wrap.  Pointers that may be NULL are modelled as `Bool` flags or
`Option`; byte buffers are modelled as total functions `Nat → Nat`
(byte value at index).  External device / OS calls (fsStorageRead,
fsOpenGameCardStorage, ...) are modelled through explicit environment
records that record each call's outcome.
-/

namespace NxGamecard

/-- 2^64, the modulus of C `u64` arithmetic. -/
def U64 : Nat := 18446744073709551616

/-- C `u64` addition (wraps modulo 2^64). -/
def add64 (a b : Nat) : Nat := (a + b) % U64

/-- C `u64` subtraction (wraps modulo 2^64); callers pass values `< U64`. -/
def sub64 (a b : Nat) : Nat := (a + (U64 - b % U64)) % U64

/-- `GAMECARD_MEDIA_UNIT_SIZE` (part_001 line 28). -/
def GAMECARD_MEDIA_UNIT_SIZE : Nat := 0x200

/-- `GAMECARD_READ_BUFFER_SIZE` (8 MiB scratch buffer, gamecard.c line 26). -/
def GAMECARD_READ_BUFFER_SIZE : Nat := 0x800000

/-- `GAMECARD_UPDATE_TID` (gamecard.c line 30). -/
def GAMECARD_UPDATE_TID : Nat := 0x0100000000000816

/-- `ALIGN_DOWN(x, a)` for the power-of-two `a = 0x200` used by the code:
`x & ~(a-1)`, i.e. `x - x % a`. -/
def alignDown (x a : Nat) : Nat := x - x % a

/-- `ALIGN_UP(x, a)` / `ROUND_UP(x, a)`: `((x) + (a) - 1) & ~((a)-1)`,
with the intermediate u64 addition wrapping as in C. -/
def alignUp64 (x a : Nat) : Nat := alignDown (add64 x (a - 1)) a

/-! ## gamecardGetCapacityFromRomSizeValue (gamecard.c lines 873-902) -/

/-- `GameCardRomSize` enum values (part_001 lines 43-50). -/
def GameCardRomSize_1GiB : Nat := 0xFA
def GameCardRomSize_2GiB : Nat := 0xF8
def GameCardRomSize_4GiB : Nat := 0xF0
def GameCardRomSize_8GiB : Nat := 0xE0
def GameCardRomSize_16GiB : Nat := 0xE1
def GameCardRomSize_32GiB : Nat := 0xE2

/-- `gamecardGetCapacityFromRomSizeValue` (gamecard.c lines 873-902):
switch on the rom_size byte, returning the fixed capacity table value,
zero in the default case. -/
def gamecardGetCapacityFromRomSizeValue (rom_size : Nat) : Nat :=
  if rom_size = GameCardRomSize_1GiB then 0x40000000
  else if rom_size = GameCardRomSize_2GiB then 0x80000000
  else if rom_size = GameCardRomSize_4GiB then 0x100000000
  else if rom_size = GameCardRomSize_8GiB then 0x200000000
  else if rom_size = GameCardRomSize_16GiB then 0x400000000
  else if rom_size = GameCardRomSize_32GiB then 0x800000000
  else 0

/-! ## PFS0 name accessors (data_transfer_task.hpp, pfs.h part, lines 360-400) -/

/-- A `PartitionFileSystemContext` together with the parts of its header
blob that the name accessors read.  `ctxNull`/`headerNull` model NULL
pointers; `tableByte i` is the byte at index `i` of the name-table
region of the blob (0 = NUL terminator). -/
structure PfsCtx where
  ctxNull : Bool
  headerNull : Bool
  header_size : Nat
  entry_count : Nat
  name_table_size : Nat
  tableByte : Nat → Nat

/-- A `PartitionFileSystemEntry` (pfs.h): only the field the name
accessors read. -/
structure PfsEntry where
  name_offset : Nat

/-- `pfsGetEntryCount`: `if (!ctx || !ctx->header_size || !ctx->header)
return 0; return header->entry_count`. -/
def pfsGetEntryCount (ctx : PfsCtx) : Nat :=
  if ctx.ctxNull || ctx.header_size == 0 || ctx.headerNull then 0
  else ctx.entry_count

/-- `pfsGetNameTable`: returns NULL iff `pfsGetEntryCount` is zero;
otherwise a pointer to the name-table region.  Modelled as the Bool
"the returned pointer is non-NULL". -/
def pfsGetNameTable (ctx : PfsCtx) : Bool :=
  pfsGetEntryCount ctx != 0

/-- `pfsGetEntryName`: returns NULL if the name table is NULL, the
entry pointer is NULL, `name_offset >= name_table_size`, or the byte at
`name_offset` is NUL; otherwise `name_table + name_offset`.  Modelled
as `Option Nat`: `some o` is the pointer at offset `o` into the name
table. -/
def pfsGetEntryName (ctx : PfsCtx) (fs_entry : Option PfsEntry) : Option Nat :=
  if !(pfsGetNameTable ctx) then none
  else match fs_entry with
    | none => none
    | some e =>
      if e.name_offset ≥ ctx.name_table_size then none
      else if ctx.tableByte e.name_offset == 0 then none
      else some e.name_offset

/-! ## Gamecard session cached-field accessors
(gamecard.c lines 112-223 / part_000 lines 246-358) -/

/-- `sizeof(GameCardHeader)` (part_001 lines 97-119: 0x100 signature +
0x90 plain fields + 0x70 extended header). -/
def sizeofGameCardHeader : Nat := 0x200

/-- The gamecard session's shared state fields read by the public
accessors (the globals of gamecard.c guarded by the shared mutex). -/
structure GcSessionState where
  inserted : Bool
  infoLoaded : Bool
  handleValue : Nat
  headerValidDataEndAddress : Nat
  normalAreaSize : Nat
  secureAreaSize : Nat
  capacity : Nat

/-- `gamecardIsReady` (gamecard.c lines 112-121):
`g_gameCardInserted && g_gameCardInfoLoaded`. -/
def gamecardIsReady (s : GcSessionState) : Bool :=
  s.inserted && s.infoLoaded

/-- `gamecardGetHeader` (gamecard.c lines 128-141): succeeds iff
inserted, info loaded and the out pointer is non-NULL (`outNull`
models `out == NULL`). -/
def gamecardGetHeader (s : GcSessionState) (outNull : Bool) : Bool :=
  s.inserted && s.infoLoaded && !outNull

/-- `gamecardGetTotalSize` (gamecard.c lines 143-156): on success
writes `normal + secure` area size (u64 addition). -/
def gamecardGetTotalSize (s : GcSessionState) (outNull : Bool) : Option Nat :=
  if s.inserted && s.infoLoaded && !outNull then
    some (add64 s.normalAreaSize s.secureAreaSize)
  else none

/-- `gamecardGetTrimmedSize` (gamecard.c lines 158-171): on success
writes `sizeof(GameCardHeader) + valid_data_end_address * 0x200`. -/
def gamecardGetTrimmedSize (s : GcSessionState) (outNull : Bool) : Option Nat :=
  if s.inserted && s.infoLoaded && !outNull then
    some (add64 sizeofGameCardHeader
      ((s.headerValidDataEndAddress * GAMECARD_MEDIA_UNIT_SIZE) % U64))
  else none

/-- `gamecardGetRomCapacity` (gamecard.c lines 173-186). -/
def gamecardGetRomCapacity (s : GcSessionState) (outNull : Bool) : Option Nat :=
  if s.inserted && s.infoLoaded && !outNull then some s.capacity else none

/-- `gamecardGetCertificate` (gamecard.c lines 188-203): guarded by
`g_gameCardInserted && g_gameCardHandle.value && out`; then succeeds
iff the device-operator call succeeds (`rcOk`). -/
def gamecardGetCertificate (s : GcSessionState) (outNull : Bool) (rcOk : Bool) : Bool :=
  if s.inserted && s.handleValue != 0 && !outNull then rcOk else false

/-- `gamecardGetBundledFirmwareUpdateVersion` (gamecard.c lines
205-223): guarded by `g_gameCardInserted && g_gameCardHandle.value &&
out`; succeeds iff the device-operator call succeeds and the returned
update title id equals `GAMECARD_UPDATE_TID`. -/
def gamecardGetBundledFirmwareUpdateVersion (s : GcSessionState) (outNull : Bool)
    (rcOk : Bool) (update_id : Nat) : Bool :=
  if s.inserted && s.handleValue != 0 && !outNull then
    rcOk && update_id == GAMECARD_UPDATE_TID
  else false

/-! ## gamecardInitialize (part_000 lines 130-192) -/

/-- The module-level resource flags touched by `gamecardInitialize`
(part_000 lines 78-93). -/
structure GcInitState where
  interfaceInit : Bool
  readBufAllocated : Bool
  openDeviceOperator : Bool
  openEventNotifier : Bool
  loadKernelEvent : Bool
  exitEventCreated : Bool
  statusEventCreated : Bool
  threadCreated : Bool

/-- Outcomes of the resource acquisitions `gamecardInitialize`
performs (malloc, fsOpenDeviceOperator,
fsOpenGameCardDetectionEventNotifier, fsEventNotifierGetEventHandle,
thrd_create). -/
structure GcInitEnv where
  allocOk : Bool
  devOpOk : Bool
  notifierOk : Bool
  eventOk : Bool
  threadOk : Bool

/-- `gamecardInitialize` (part_000 lines 130-192): under the mutex,
returns true at once if the interface is already initialized;
otherwise acquires each resource in order, jumping to `out` (returning
false, keeping the flags acquired so far) at the first failure, and
sets `g_gamecardInterfaceInit` on full success. -/
def gamecardInitialize (env : GcInitEnv) (s : GcInitState) : Bool × GcInitState :=
  if s.interfaceInit then (true, s)
  else if !env.allocOk then (false, s)
  else
    let s := { s with readBufAllocated := true }
    if !env.devOpOk then (false, s)
    else
      let s := { s with openDeviceOperator := true }
      if !env.notifierOk then (false, s)
      else
        let s := { s with openEventNotifier := true }
        if !env.eventOk then (false, s)
        else
          let s := { s with loadKernelEvent := true,
                            exitEventCreated := true, statusEventCreated := true }
          if !env.threadOk then (false, s)
          else (true, { s with threadCreated := true, interfaceInit := true })

/-! ## gamecardGetHandle (gamecard.c lines 654-693 / part_000 lines 761-800) -/

/-- Device responses seen by `gamecardGetHandle`'s retry loop:
`openOk i` is whether the i-th `fsOpenGameCardStorage` probe succeeds,
`getOk i` whether the i-th `fsDeviceOperatorGetGameCardHandle` call
succeeds, and `newHandle i` the handle value it stores on success. -/
structure GetHandleEnv where
  openOk : Nat → Bool
  getOk : Nat → Bool
  newHandle : Nat → Nat

/-- Result of the `for(u8 i = 0; i < 10; i++)` loop of
`gamecardGetHandle`: final `rc1` success flag, final `rc2` success
flag, handle value after the loop, and the number of
`fsOpenGameCardStorage` probes issued. -/
def gamecardGetHandleLoop (env : GetHandleEnv) (handle : Nat) (rc2Ok : Bool)
    (i : Nat) : Nat → Bool × Bool × Nat × Nat
  | 0 => (false, rc2Ok, handle, 0)
  | remaining + 1 =>
    if env.openOk i then (true, rc2Ok, handle, 1)
    else
      -- gamecardCloseHandle(); rc2 = fsDeviceOperatorGetGameCardHandle(...)
      let handle := if env.getOk i then env.newHandle i else 0
      let r := gamecardGetHandleLoop env handle (env.getOk i) (i + 1) remaining
      (r.1, r.2.1, r.2.2.1, r.2.2.2 + 1)

/-- `gamecardGetHandle`: returns false at once if no card is inserted;
runs the 10-attempt probe loop; on `R_FAILED(rc1) || R_FAILED(rc2)`
closes the leftover handle (sets it to 0) and returns false.  Result:
(return value, final handle value, number of open probes issued). -/
def gamecardGetHandle (inserted : Bool) (handle : Nat) (env : GetHandleEnv) :
    Bool × Nat × Nat :=
  if !inserted then (false, handle, 0)
  else
    let r := gamecardGetHandleLoop env handle true 0 10
    if !r.1 || !r.2.1 then (false, 0, r.2.2.2)
    else (true, r.2.2.1, r.2.2.2)

/-! ## gamecardReadStorageArea
(gamecard.c lines 737-816 / part_000 lines 844-924)

The inserted card is modelled as two byte arrays (total functions
`Nat → Nat`) for the normal and secure storage areas.  The device
calls `fsStorageRead` / `fsOpenGameCardStorage` are modelled as always
succeeding (the claims about this function concern its address-space
splitting and alignment logic; device-failure paths return false in
the code and are covered by the handle model).  The result carries the
final output buffer, the final scratch-buffer contents
(`g_gameCardReadBuf`), and the number of `fsStorageRead` calls issued. -/

/-- `GameCardStorageArea` enum (gamecard.c lines 46-50). -/
def GameCardStorageArea_Normal : Nat := 1
def GameCardStorageArea_Secure : Nat := 2

/-- The state of the inserted gamecard seen by the read path. -/
structure GcCard where
  inserted : Bool
  normalSize : Nat
  secureSize : Nat
  normalData : Nat → Nat
  secureData : Nat → Nat

/-- Byte `i` of the given storage area. -/
def areaByte (gc : GcCard) (area : Nat) (i : Nat) : Nat :=
  if area = GameCardStorageArea_Normal then gc.normalData i else gc.secureData i

/-- The logical linear address space: normal area followed by the
secure area (the spec's view of the card contents). -/
def logicalByte (gc : GcCard) (i : Nat) : Nat :=
  if i < gc.normalSize then gc.normalData i else gc.secureData (i - gc.normalSize)

/-- `memcpy(dst + dstPos, src + srcPos, len)` on buffers modelled as
functions. -/
def copyRegion (dst : Nat → Nat) (dstPos len : Nat) (src : Nat → Nat)
    (srcPos : Nat) : Nat → Nat :=
  fun j => if dstPos ≤ j ∧ j < dstPos + len then src (srcPos + (j - dstPos)) else dst j

/-- `gamecardOpenStorageArea` (gamecard.c lines 701-735) with the
device open calls modelled as succeeding: fails iff no card is
inserted or the area is neither Normal nor Secure. -/
def gamecardOpenStorageArea (gc : GcCard) (area : Nat) : Bool :=
  gc.inserted && (area == GameCardStorageArea_Normal || area == GameCardStorageArea_Secure)

/-- `gamecardReadStorageArea` (gamecard.c lines 737-816).  `outNull`
models `out == NULL`; `out` is the output buffer and `outPos` the
offset of `out_u8` within it (pointer arithmetic `out_u8 += ...` is
modelled by advancing `outPos`); `buf` is the 8 MiB scratch buffer
`g_gameCardReadBuf`.  The u64 arithmetic of the C code is reproduced
with `add64`/`sub64`/`alignUp64`.  `fuel` bounds the recursion depth
(the C recursion is not structurally decreasing for arbitrary wrapped
inputs); every theorem below supplies enough fuel explicitly.  Result:
(success, final out, final scratch buffer, number of fsStorageRead
calls). -/
def gamecardReadStorageArea (gc : GcCard) (outNull : Bool) (out buf : Nat → Nat)
    (outPos read_size offset : Nat) : Nat → Bool × (Nat → Nat) × (Nat → Nat) × Nat
  | 0 => (false, out, buf, 0)
  | fuel + 1 =>
    let total := add64 gc.normalSize gc.secureSize
    if !gc.inserted || gc.normalSize == 0 || gc.secureSize == 0 || outNull
        || read_size == 0 || decide (offset ≥ total)
        || decide (add64 offset read_size > total) then
      (false, out, buf, 0)
    else
      -- the tail shared by the split and no-split paths (open the area,
      -- then the aligned fast path or the buffered unaligned path)
      let tail : (Nat → Nat) → (Nat → Nat) → Nat → Nat → Nat → Nat → Nat →
          Bool × (Nat → Nat) × (Nat → Nat) × Nat :=
        fun out buf outPos read_size offset area cnt =>
          if !(gamecardOpenStorageArea gc area) then (false, out, buf, cnt)
          else
            let base_offset :=
              if area = GameCardStorageArea_Normal then offset
              else sub64 offset gc.normalSize
            if base_offset % GAMECARD_MEDIA_UNIT_SIZE == 0
                && read_size % GAMECARD_MEDIA_UNIT_SIZE == 0 then
              -- fsStorageRead(&storage, base_offset, out_u8, read_size)
              (true, copyRegion out outPos read_size (areaByte gc area) base_offset,
               buf, cnt + 1)
            else
              let block_start_offset := alignDown base_offset GAMECARD_MEDIA_UNIT_SIZE
              let block_end_offset :=
                alignUp64 (add64 base_offset read_size) GAMECARD_MEDIA_UNIT_SIZE
              let block_size := sub64 block_end_offset block_start_offset
              let data_start_offset := sub64 base_offset block_start_offset
              let chunk_size :=
                if block_size > GAMECARD_READ_BUFFER_SIZE then GAMECARD_READ_BUFFER_SIZE
                else block_size
              let out_chunk_size :=
                if block_size > GAMECARD_READ_BUFFER_SIZE then
                  sub64 GAMECARD_READ_BUFFER_SIZE data_start_offset
                else read_size
              -- fsStorageRead(&storage, block_start_offset, g_gameCardReadBuf, chunk_size)
              let buf := copyRegion buf 0 chunk_size (areaByte gc area) block_start_offset
              -- memcpy(out_u8, g_gameCardReadBuf + data_start_offset, out_chunk_size)
              let out := copyRegion out outPos out_chunk_size buf data_start_offset
              if block_size > GAMECARD_READ_BUFFER_SIZE then
                -- recursive call with offset argument base_offset + out_chunk_size
                let r := gamecardReadStorageArea gc outNull out buf
                  (outPos + out_chunk_size) (sub64 read_size out_chunk_size)
                  (add64 base_offset out_chunk_size) fuel
                (r.1, r.2.1, r.2.2.1, r.2.2.2 + cnt + 1)
              else (true, out, buf, cnt + 1)
      let area :=
        if offset < gc.normalSize then GameCardStorageArea_Normal
        else GameCardStorageArea_Secure
      if area = GameCardStorageArea_Normal
          ∧ add64 offset read_size > gc.normalSize then
        -- read spans both areas: read the normal-area part first
        let diff_size := sub64 gc.normalSize offset
        let r := gamecardReadStorageArea gc outNull out buf outPos diff_size offset fuel
        if !r.1 then (false, r.2.1, r.2.2.1, r.2.2.2)
        else
          tail r.2.1 r.2.2.1 (outPos + diff_size) (sub64 read_size diff_size)
            gc.normalSize GameCardStorageArea_Secure r.2.2.2
      else tail out buf outPos read_size offset area 0

/-! ## Hash FS name lookups
(gamecard.c lines 225-266, 904-944 / part_000 lines 1033-1074) -/

/-- One `GameCardHashFileSystemEntry` (the fields the lookups read). -/
structure HfsEntryRec where
  offset : Nat
  size : Nat
  name_offset : Nat

/-- A hash FS header blob: header fields plus the entry array and the
name-table bytes (`entries i` is meaningful for `i < entry_count`;
`tableByte i` is byte `i` of the region following the entry array,
total over `Nat` because the C code can index past
`name_table_size`). -/
structure HfsBlob where
  headerNull : Bool
  entry_count : Nat
  name_table_size : Nat
  entries : Nat → HfsEntryRec
  tableByte : Nat → Nat

/-- ASCII `tolower`, as used by strncasecmp/strcasecmp. -/
def toLowerByte (b : Nat) : Nat := if 0x41 ≤ b ∧ b ≤ 0x5A then b + 0x20 else b

/-- `strncmp(s1, q, q.length) == 0` where `s1` is the NUL-terminated
string at offset `off` of `tbl` and `q` lists the bytes of the query
(strlen semantics: the comparison stops at a common NUL). -/
def strncmpIsZero (tbl : Nat → Nat) (off : Nat) : List Nat → Bool
  | [] => true
  | c :: cs =>
    if tbl off == c then (if c == 0 then true else strncmpIsZero tbl (off + 1) cs)
    else false

/-- `strncasecmp(s1, q, q.length) == 0`: as `strncmpIsZero` but
comparing `tolower` of each byte. -/
def strncasecmpIsZero (tbl : Nat → Nat) (off : Nat) : List Nat → Bool
  | [] => true
  | c :: cs =>
    if toLowerByte (tbl off) == toLowerByte c then
      (if c == 0 then true else strncasecmpIsZero tbl (off + 1) cs)
    else false

/-- `strcasecmp(s1, q) == 0`: full case-insensitive equality with the
NUL-terminated string at offset `off` of `tbl`. -/
def strcasecmpIsZero (tbl : Nat → Nat) (off : Nat) : List Nat → Bool
  | [] => tbl off == 0
  | c :: cs =>
    if toLowerByte (tbl off) == toLowerByte c then
      (if c == 0 then true else strcasecmpIsZero tbl (off + 1) cs)
    else false

/-- `gamecardGetHashFileSystemNameTable` (part_000 lines 1039-1044):
NULL iff the header is NULL or has no entries. -/
def gamecardGetHashFileSystemNameTable (h : HfsBlob) : Bool :=
  !h.headerNull && h.entry_count != 0

/-- `gamecardGetHashFileSystemEntryName` (gamecard.c lines 936-944):
NULL if the header is NULL, has no entries, or
`name_offset >= name_table_size`; otherwise the pointer at
`name_offset` into the name table. -/
def gamecardGetHashFileSystemEntryName (h : HfsBlob) (name_offset : Nat) : Option Nat :=
  if h.headerNull then none
  else if h.entry_count == 0 || name_offset ≥ h.name_table_size then none
  else some name_offset

/-- The scan loop of `gamecardGetHashFileSystemEntryIndexByName`
(part_000 lines 1062-1071): case-sensitive `strncmp` bounded by the
query length, on `name_table + fs_entry->name_offset`, first match
wins.  (`gamecardGetHashFileSystemEntryByIndex` cannot return NULL
inside the loop: `i < entry_count` and the header was checked.) -/
def hfsFindEntryCS (h : HfsBlob) (q : List Nat) (i : Nat) : Nat → Option Nat
  | 0 => none
  | remaining + 1 =>
    if strncmpIsZero h.tableByte ((h.entries i).name_offset) q then some i
    else hfsFindEntryCS h q (i + 1) remaining

/-- `gamecardGetHashFileSystemEntryIndexByName` (part_000 lines
1054-1074): fails on NULL/empty header, NULL name table, NULL or empty
query, or NULL out pointer; otherwise scans the entries with
case-sensitive length-bounded `strncmp`. -/
def gamecardGetHashFileSystemEntryIndexByName (h : HfsBlob) (nameNull : Bool)
    (q : List Nat) (outIdxNull : Bool) : Option Nat :=
  if h.headerNull || h.entry_count == 0 || !(gamecardGetHashFileSystemNameTable h)
      || nameNull || q.length == 0 || outIdxNull then none
  else hfsFindEntryCS h q 0 h.entry_count

/-- The scan loop of
`gamecardGetOffsetAndSizeFromHashFileSystemPartitionEntryByName`
(gamecard.c lines 245-260): skip entries whose name pointer is NULL
(`name_offset` out of the name table), else case-insensitive
`strncasecmp` bounded by the query length, first match wins. -/
def hfsFindEntryCI (h : HfsBlob) (q : List Nat) (i : Nat) : Nat → Option Nat
  | 0 => none
  | remaining + 1 =>
    match gamecardGetHashFileSystemEntryName h ((h.entries i).name_offset) with
    | none => hfsFindEntryCI h q (i + 1) remaining
    | some noff =>
      if strncasecmpIsZero h.tableByte noff q then some i
      else hfsFindEntryCI h q (i + 1) remaining

/-- `GAMECARD_HFS_PARTITION_NAME` (part_001 lines 30-31), as byte
lists ("update", "logo", "normal", "secure", "unknown"). -/
def GAMECARD_HFS_PARTITION_NAME (ty : Nat) : List Nat :=
  if ty = 0 then [0x75, 0x70, 0x64, 0x61, 0x74, 0x65]
  else if ty = 1 then [0x6C, 0x6F, 0x67, 0x6F]
  else if ty = 2 then [0x6E, 0x6F, 0x72, 0x6D, 0x61, 0x6C]
  else if ty = 3 then [0x73, 0x65, 0x63, 0x75, 0x72, 0x65]
  else [0x75, 0x6E, 0x6B, 0x6E, 0x6F, 0x77, 0x6E]

/-- The scan loop of `gamecardGetHashFileSystemPartitionIndexByType`
(gamecard.c lines 912-925): full case-insensitive `strcasecmp` against
the partition-type name, skipping entries with NULL names. -/
def hfsFindPartition (h : HfsBlob) (pname : List Nat) (i : Nat) : Nat → Option Nat
  | 0 => none
  | remaining + 1 =>
    match gamecardGetHashFileSystemEntryName h ((h.entries i).name_offset) with
    | none => hfsFindPartition h pname (i + 1) remaining
    | some noff =>
      if strcasecmpIsZero h.tableByte noff pname then some i
      else hfsFindPartition h pname (i + 1) remaining

/-- `gamecardGetHashFileSystemPartitionIndexByType` (gamecard.c lines
904-928): fails for `type > Secure (3)` or NULL out pointer, else
scans the root blob for the partition-type name. -/
def gamecardGetHashFileSystemPartitionIndexByType (root : HfsBlob) (ty : Nat)
    (outNull : Bool) : Option Nat :=
  if ty > 3 || outNull then none
  else hfsFindPartition root (GAMECARD_HFS_PARTITION_NAME ty) 0 root.entry_count

/-- A cached `GameCardHashFileSystemPartitionInfo` entry
(gamecard.c lines 52-57). -/
structure GcPartInfo where
  offset : Nat
  header_size : Nat

/-- `gamecardGetOffsetAndSizeFromHashFileSystemPartitionEntryByName`
(gamecard.c lines 225-266): session guards (inserted, info loaded,
non-NULL non-empty name, at least one out pointer, partition found by
type), then the case-insensitive scan of that partition's blob;
on a match writes `partition.offset + partition.header_size +
entry.offset` and `entry.size` (u64 additions).  `parts pidx` is
`g_gameCardHfsPartitions[pidx]` paired with that partition's header
blob. -/
def gamecardGetOffsetAndSizeFromHashFileSystemPartitionEntryByName
    (s : GcSessionState) (root : HfsBlob) (parts : Nat → GcPartInfo × HfsBlob)
    (ty : Nat) (nameNull : Bool) (q : List Nat) (outOffNull outSizeNull : Bool) :
    Option (Nat × Nat) :=
  if !s.inserted || !s.infoLoaded || nameNull || q.length == 0
      || (outOffNull && outSizeNull) then none
  else match gamecardGetHashFileSystemPartitionIndexByType root ty false with
    | none => none
    | some pidx =>
      let part := (parts pidx).1
      let ph := (parts pidx).2
      match hfsFindEntryCI ph q 0 ph.entry_count with
      | none => none
      | some i =>
        some (add64 (add64 part.offset part.header_size) ((ph.entries i).offset),
              (ph.entries i).size)

/-! ## gamecardLoadInfo / gamecardFreeInfo / detection thread step
(gamecard.c lines 428-457, 477-652) -/

/-- `GAMECARD_HEAD_MAGIC` ("HEAD" big-endian, part_001 line 24). -/
def GAMECARD_HEAD_MAGIC : Nat := 0x48454144

/-- `GAMECARD_HFS0_MAGIC` ("HFS0" big-endian, part_001 line 26). -/
def GAMECARD_HFS0_MAGIC : Nat := 0x48465330

/-- `GAMECARD_ECC_BLOCK_SIZE` / `GAMECARD_ECC_DATA_SIZE`
(gamecard.c lines 32-33). -/
def GAMECARD_ECC_BLOCK_SIZE : Nat := 0x200
def GAMECARD_ECC_DATA_SIZE : Nat := 0x24

/-- `sizeof(GameCardHashFileSystemHeader)` (part_000 lines 47-52:
u32 magic + u32 entry_count + u32 name_table_size + 4 reserved). -/
def sizeofHfsHeader : Nat := 0x10

/-- `sizeof(GameCardHashFileSystemEntry)` (part_000 lines 54-61:
u64 offset + u64 size + u32 name_offset + u32 hash_target_size +
u64 hash_target_offset + 0x20 hash). -/
def sizeofHfsEntry : Nat := 0x40

/-- `__builtin_bswap32` on a u32 value. -/
def bswap32 (x : Nat) : Nat :=
  (x % 0x100) * 0x1000000 + (x / 0x100 % 0x100) * 0x10000
    + (x / 0x10000 % 0x100) * 0x100 + (x / 0x1000000 % 0x100)

/-- The `GameCardHeader` fields read by `gamecardLoadInfo` and the
cached-field accessors (part_001 lines 97-119). -/
structure GCHeaderRec where
  magic : Nat
  rom_size : Nat
  valid_data_end_address : Nat
  partition_fs_header_address : Nat
  partition_fs_header_size : Nat
deriving DecidableEq

/-- The all-zero `GameCardHeader` left by `memset` in
`gamecardFreeInfo`. -/
def zeroGCHeader : GCHeaderRec := ⟨0, 0, 0, 0, 0⟩

/-- A `GameCardHashFileSystemHeader` as read from the card. -/
structure HfsHeaderRec where
  magic : Nat
  entry_count : Nat
  name_table_size : Nat

/-- The global cache state touched by `gamecardLoadInfo` /
`gamecardFreeInfo` (gamecard.c lines 69-81): insertion flag, loaded
flag, cached header, storage-area sizes, capacity, whether the root
HFS header buffer and the partitions-info buffer are allocated, and
the open storage handle/area closed by `gamecardCloseStorageArea`. -/
structure GcCacheState where
  inserted : Bool
  infoLoaded : Bool
  header : GCHeaderRec
  normalSize : Nat
  secureSize : Nat
  capacity : Nat
  rootHeaderBuf : Bool
  partitionsBuf : Bool
  storageOpen : Bool
  handleValue : Nat
  currentArea : Nat
deriving DecidableEq

/-- `gamecardFreeInfo` (gamecard.c lines 618-652): zero the cached
header, reset sizes and capacity, free the per-partition header
buffers, the root header buffer and the partitions-info array, close
the storage area and handle, and clear the loaded flag. -/
def gamecardFreeInfo (s : GcCacheState) : GcCacheState :=
  { s with header := zeroGCHeader, normalSize := 0, secureSize := 0, capacity := 0,
           rootHeaderBuf := false, partitionsBuf := false,
           storageOpen := false, handleValue := 0, currentArea := 0,
           infoLoaded := false }

/-- Outcomes of the device reads and allocations performed by
`gamecardLoadInfo`: the storage-area sizes it retrieves, the header
bytes it reads (already parsed into the fields the code inspects), the
root hash FS header, its parsed entries, and the per-partition read /
allocation outcomes of the partition loop. -/
structure GcLoadEnv where
  getSizesOk : Bool
  normalSize : Nat
  secureSize : Nat
  headerReadOk : Bool
  header : GCHeaderRec
  cfwIsSXOS : Bool
  rootAllocOk : Bool
  rootReadOk : Bool
  rootHfs : HfsHeaderRec
  rootEntries : Nat → HfsEntryRec
  partsAllocOk : Bool
  partReadOk : Nat → Bool
  partHeader : Nat → HfsHeaderRec
  partAllocOk : Nat → Bool
  partFullReadOk : Nat → Bool

/-- The `for(u32 i = 0; i < fs_header->entry_count; i++)` partition
loop of `gamecardLoadInfo` (gamecard.c lines 560-610): each iteration
fails on a zero-size entry, a failed partial header read, a bad HFS0
magic, a zero name table size, a failed allocation or a failed full
header read.  (Inside the loop `gamecardGetHashFileSystemEntryByIndex`
cannot return NULL: `i < entry_count` and the root header is
non-NULL.) -/
def gamecardLoadPartitionsLoop (env : GcLoadEnv) (i : Nat) : Nat → Bool
  | 0 => true
  | remaining + 1 =>
    if (env.rootEntries i).size == 0 then false
    else if !(env.partReadOk i) then false
    else if bswap32 (env.partHeader i).magic != GAMECARD_HFS0_MAGIC then false
    else if (env.partHeader i).name_table_size == 0 then false
    else if !(env.partAllocOk i) then false
    else if !(env.partFullReadOk i) then false
    else gamecardLoadPartitionsLoop env (i + 1) remaining

/-- `gamecardLoadInfo` (gamecard.c lines 477-616): early return if
info is already loaded; otherwise retrieve storage-area sizes, read
and validate the gamecard header (magic, capacity), apply the SX OS
secure-area-size fixup, allocate and read the root hash FS header,
validate its magic, entry count, name table size and computed total
header size, then run the partition loop.  On success set
`g_gameCardInfoLoaded`; on any failure fall through to
`gamecardFreeInfo`. -/
def gamecardLoadInfo (env : GcLoadEnv) (s : GcCacheState) : GcCacheState :=
  if s.infoLoaded then s
  else
    let res : Bool × GcCacheState :=
      if !env.getSizesOk then (false, s)
      else
        let s := { s with normalSize := env.normalSize, secureSize := env.secureSize }
        if !env.headerReadOk then (false, s)
        else
          let s := { s with header := env.header }
          if bswap32 env.header.magic != GAMECARD_HEAD_MAGIC then (false, s)
          else
            let cap := gamecardGetCapacityFromRomSizeValue env.header.rom_size
            let s := { s with capacity := cap }
            if cap == 0 then (false, s)
            else
              let s :=
                if env.cfwIsSXOS then
                  { s with secureSize :=
                      sub64 (sub64 cap ((cap / GAMECARD_ECC_BLOCK_SIZE
                        * GAMECARD_ECC_DATA_SIZE) % U64)) s.normalSize }
                else s
              if !env.rootAllocOk then (false, s)
              else
                let s := { s with rootHeaderBuf := true }
                if !env.rootReadOk then (false, s)
                else if bswap32 env.rootHfs.magic != GAMECARD_HFS0_MAGIC then (false, s)
                else if env.rootHfs.entry_count == 0 || env.rootHfs.name_table_size == 0
                    || decide (sizeofHfsHeader + env.rootHfs.entry_count * sizeofHfsEntry
                        + env.rootHfs.name_table_size
                        > env.header.partition_fs_header_size) then (false, s)
                else if !env.partsAllocOk then (false, s)
                else
                  let s := { s with partitionsBuf := true }
                  if gamecardLoadPartitionsLoop env 0 env.rootHfs.entry_count then
                    (true, s)
                  else (false, s)
    if res.1 then { res.2 with infoLoaded := true } else gamecardFreeInfo res.2

/-- The fully freed "not ready" cache state (only the insertion flag
survives `gamecardFreeInfo`). -/
def freedCacheState (inserted : Bool) : GcCacheState :=
  { inserted := inserted, infoLoaded := false, header := zeroGCHeader,
    normalSize := 0, secureSize := 0, capacity := 0,
    rootHeaderBuf := false, partitionsBuf := false,
    storageOpen := false, handleValue := 0, currentArea := 0 }

/-- The action the detection thread takes on a processed status-change
event (gamecard.c lines 443-453): load info only on a
not-inserted → inserted transition, free it otherwise. -/
inductive GcDetectAction where
  | load
  | free
deriving DecidableEq

/-- The body of the detection loop's status handling (gamecard.c lines
441-453): `if (!prev_status && g_gameCardInserted) gamecardLoadInfo()
else gamecardFreeInfo()`. -/
def gamecardDetectionStep (prev_status inserted : Bool) : GcDetectAction :=
  if !prev_status && inserted then .load else .free

/-! ## Spec-side predicates and concrete inputs -/

/-- Spec-side (claim C3): entry `j` of the blob is a valid
case-insensitive prefix match for the query `q` — its name offset lies
inside the name table and the stored name has `q` as a
case-insensitive prefix. -/
def ciEntryMatch (h : HfsBlob) (q : List Nat) (j : Nat) : Prop :=
  (h.entries j).name_offset < h.name_table_size ∧
  ∀ k, k < q.length →
    toLowerByte (h.tableByte ((h.entries j).name_offset + k)) = toLowerByte (q.getD k 0)

instance (h : HfsBlob) (q : List Nat) (j : Nat) : Decidable (ciEntryMatch h q j) := by
  unfold ciEntryMatch
  infer_instance

/-- Spec-side (claim C3): entry `j` is a case-sensitive prefix match
for `q` (the comparison `gamecardGetHashFileSystemEntryIndexByName`
actually performs applies no name-offset bound). -/
def csEntryMatch (h : HfsBlob) (q : List Nat) (j : Nat) : Prop :=
  ∀ k, k < q.length → h.tableByte ((h.entries j).name_offset + k) = q.getD k 0

instance (h : HfsBlob) (q : List Nat) (j : Nat) : Decidable (csEntryMatch h q j) := by
  unfold csEntryMatch
  infer_instance

/-- Proof-side helper: first index `j ≥ i` within the next `r` indices
satisfying `p`. -/
def findFirstAux (p : Nat → Bool) (i : Nat) : Nat → Option Nat
  | 0 => none
  | r + 1 => if p i then some i else findFirstAux p (i + 1) r

/-- The concrete blob for the C3 counterexample: one entry whose
stored name is "UPDATE". -/
def c3blob : HfsBlob :=
  ⟨false, 1, 7, fun _ => ⟨0, 0, 0⟩,
   fun i => [0x55, 0x50, 0x44, 0x41, 0x54, 0x45].getD i 0⟩

/-- The query "update" (lowercase) as a byte list. -/
def c3query : List Nat := [0x75, 0x70, 0x64, 0x61, 0x74, 0x65]

/-- The concrete card exhibiting the C1 offset bug: 0x200-byte normal
area, a secure area slightly larger than the 8 MiB scratch buffer,
with a marker byte 7 at secure-area offset 0x800000. -/
def c1card : GcCard :=
  ⟨true, 0x200, 0x800400, fun _ => 1, fun i => if i == 0x800000 then 7 else 0⟩

set_option maxRecDepth 4000

/-! ## Helper lemmas -/

/-- `gamecardFreeInfo` only keeps the insertion flag. -/
theorem gamecardFreeInfo_eq (s : GcCacheState) :
    gamecardFreeInfo s = freedCacheState s.inserted := rfl

theorem findFirstAux_some_iff (p : Nat → Bool) :
    ∀ (r i j : Nat), findFirstAux p i r = some j ↔
      (i ≤ j ∧ j < i + r ∧ p j = true ∧ ∀ k, i ≤ k → k < j → p k = false) := by
  intro r
  induction r with
  | zero => intro i j; simp [findFirstAux]; omega
  | succ n ih =>
    intro i j
    simp only [findFirstAux]
    split_ifs with h1
    · constructor
      · rintro ⟨rfl⟩
        exact ⟨Nat.le_refl i, by omega, h1, fun k hk1 hk2 => by omega⟩
      · rintro ⟨hij, -, hpj, hmin⟩
        rcases Nat.eq_or_lt_of_le hij with rfl | hlt
        · rfl
        · exact absurd h1 (by simp [hmin i (Nat.le_refl i) hlt])
    · rw [ih (i + 1) j]
      constructor
      · rintro ⟨hij, hlt, hpj, hmin⟩
        refine ⟨by omega, by omega, hpj, fun k hk1 hk2 => ?_⟩
        rcases Nat.eq_or_lt_of_le hk1 with rfl | hk
        · simpa using h1
        · exact hmin k hk hk2
      · rintro ⟨hij, hlt, hpj, hmin⟩
        have hne : i ≠ j := by
          rintro rfl
          exact absurd hpj (by simpa using h1)
        exact ⟨by omega, by omega, hpj, fun k hk1 hk2 => hmin k (by omega) hk2⟩

theorem findFirstAux_none_iff (p : Nat → Bool) :
    ∀ (r i : Nat), findFirstAux p i r = none ↔
      ∀ k, i ≤ k → k < i + r → p k = false := by
  intro r
  induction r with
  | zero => intro i; simp [findFirstAux]; omega
  | succ n ih =>
    intro i
    simp only [findFirstAux]
    split_ifs with h1
    · simp only [reduceCtorEq, false_iff, not_forall]
      exact ⟨i, Nat.le_refl i, by omega, by simp [h1]⟩
    · rw [ih (i + 1)]
      constructor
      · intro hall k hk1 hk2
        rcases Nat.eq_or_lt_of_le hk1 with rfl | hk
        · simpa using h1
        · exact hall k hk (by omega)
      · intro hall k hk1 hk2
        exact hall k (by omega) (by omega)

/-- For a NUL-free query, `strncasecmp == 0` is exactly a pointwise
case-insensitive comparison of the first `q.length` bytes. -/
theorem strncasecmpIsZero_iff (tbl : Nat → Nat) (q : List Nat) (hq : 0 ∉ q) :
    ∀ off, strncasecmpIsZero tbl off q = true ↔
      ∀ k, k < q.length → toLowerByte (tbl (off + k)) = toLowerByte (q.getD k 0) := by
  induction q with
  | nil => intro off; simp [strncasecmpIsZero]
  | cons c cs ih =>
    intro off
    have hc : c ≠ 0 := fun h => hq (by simp [h])
    have hcs : 0 ∉ cs := fun h => hq (List.mem_cons_of_mem _ h)
    simp only [strncasecmpIsZero]
    split_ifs with h1 h2
    · exact absurd (by simpa using h2) hc
    · rw [ih hcs (off + 1)]
      constructor
      · intro hall k hk
        cases k with
        | zero => simpa using h1
        | succ k' =>
          have := hall k' (by simpa using hk)
          simpa [Nat.add_comm, Nat.add_left_comm] using this
      · intro hall k hk
        have := hall (k + 1) (by simpa using Nat.succ_lt_succ hk)
        simpa [Nat.add_comm, Nat.add_left_comm] using this
    · simp only [Bool.false_eq_true, false_iff, not_forall]
      exact ⟨0, by simp, by simpa using h1⟩

/-- For a NUL-free query, `strncmp == 0` is exactly a pointwise
comparison of the first `q.length` bytes. -/
theorem strncmpIsZero_iff (tbl : Nat → Nat) (q : List Nat) (hq : 0 ∉ q) :
    ∀ off, strncmpIsZero tbl off q = true ↔
      ∀ k, k < q.length → tbl (off + k) = q.getD k 0 := by
  induction q with
  | nil => intro off; simp [strncmpIsZero]
  | cons c cs ih =>
    intro off
    have hc : c ≠ 0 := fun h => hq (by simp [h])
    have hcs : 0 ∉ cs := fun h => hq (List.mem_cons_of_mem _ h)
    simp only [strncmpIsZero]
    split_ifs with h1 h2
    · exact absurd (by simpa using h2) hc
    · rw [ih hcs (off + 1)]
      constructor
      · intro hall k hk
        cases k with
        | zero => simpa using h1
        | succ k' =>
          have := hall k' (by simpa using hk)
          simpa [Nat.add_comm, Nat.add_left_comm] using this
      · intro hall k hk
        have := hall (k + 1) (by simpa using Nat.succ_lt_succ hk)
        simpa [Nat.add_comm, Nat.add_left_comm] using this
    · simp only [Bool.false_eq_true, false_iff, not_forall]
      exact ⟨0, by simp, by simpa using h1⟩

/-- The case-sensitive scan loop is a first-match search over
`strncmpIsZero`. -/
theorem hfsFindEntryCS_eq (h : HfsBlob) (q : List Nat) :
    ∀ (r i : Nat), hfsFindEntryCS h q i r =
      findFirstAux (fun j => strncmpIsZero h.tableByte ((h.entries j).name_offset) q) i r := by
  intro r
  induction r with
  | zero => intro i; rfl
  | succ n ih =>
    intro i
    simp only [hfsFindEntryCS, findFirstAux, ih (i + 1)]

/-- The case-insensitive scan loop (entries with out-of-table name
offsets skipped) is a first-match search. -/
theorem hfsFindEntryCI_eq (h : HfsBlob) (q : List Nat) :
    ∀ (r i : Nat), hfsFindEntryCI h q i r =
      findFirstAux (fun j =>
        match gamecardGetHashFileSystemEntryName h ((h.entries j).name_offset) with
        | none => false
        | some noff => strncasecmpIsZero h.tableByte noff q) i r := by
  intro r
  induction r with
  | zero => intro i; rfl
  | succ n ih =>
    intro i
    simp only [hfsFindEntryCI, findFirstAux, ih (i + 1)]
    split
    · rename_i hstep
      cases hE : gamecardGetHashFileSystemEntryName h ((h.entries i).name_offset) with
      | none => rw [hE] at hstep; cases hstep
      | some noff =>
        rw [hE] at hstep
        have hstep' : strncasecmpIsZero h.tableByte noff q = true := hstep
        simp only [hE, hstep', if_true]
    · rename_i hstep
      cases hE : gamecardGetHashFileSystemEntryName h ((h.entries i).name_offset) with
      | none => simp only [hE]
      | some noff =>
        rw [hE] at hstep
        have hstep' : ¬strncasecmpIsZero h.tableByte noff q = true := hstep
        simp only [hE]
        rw [if_neg hstep']

/-- Under a non-NULL header with at least one entry and a NUL-free
query, the case-insensitive per-entry test of the
`gamecardGetOffsetAndSize...` loop holds exactly on `ciEntryMatch`. -/
theorem ciStep_iff (h : HfsBlob) (q : List Nat) (j : Nat)
    (hh : h.headerNull = false) (hc : h.entry_count ≠ 0) (hq : 0 ∉ q) :
    ((match gamecardGetHashFileSystemEntryName h ((h.entries j).name_offset) with
      | none => false
      | some noff => strncasecmpIsZero h.tableByte noff q) = true) ↔
      ciEntryMatch h q j := by
  unfold gamecardGetHashFileSystemEntryName
  simp only [hh, Bool.false_eq_true, if_false]
  by_cases hb : (h.entries j).name_offset < h.name_table_size
  · rw [if_neg (by simp [hc, Nat.not_le.mpr hb])]
    simp only [ciEntryMatch, strncasecmpIsZero_iff h.tableByte q hq]
    exact (and_iff_right hb).symm
  · rw [if_pos (by simp [Nat.not_lt.mp hb])]
    simp only [Bool.false_eq_true, false_iff, ciEntryMatch, not_and]
    intro hcon
    exact absurd hcon hb

/-! ## Claim theorems -/

/-- C2: `gamecardGetCapacityFromRomSizeValue` maps 0xFA/0xF8/0xF0/
0xE0/0xE1/0xE2 to exactly 1/2/4/8/16/32 GiB, returns zero for every
other byte value, and a zero capacity makes `gamecardLoadInfo` reject
the card (the session ends fully freed and not ready). -/
theorem C2_capacity_table :
    gamecardGetCapacityFromRomSizeValue 0xFA = 0x40000000 ∧
    gamecardGetCapacityFromRomSizeValue 0xF8 = 0x80000000 ∧
    gamecardGetCapacityFromRomSizeValue 0xF0 = 0x100000000 ∧
    gamecardGetCapacityFromRomSizeValue 0xE0 = 0x200000000 ∧
    gamecardGetCapacityFromRomSizeValue 0xE1 = 0x400000000 ∧
    gamecardGetCapacityFromRomSizeValue 0xE2 = 0x800000000 ∧
    (∀ b, b ≠ 0xFA → b ≠ 0xF8 → b ≠ 0xF0 → b ≠ 0xE0 → b ≠ 0xE1 → b ≠ 0xE2 →
      gamecardGetCapacityFromRomSizeValue b = 0) ∧
    (∀ (env : GcLoadEnv) (s : GcCacheState), s.infoLoaded = false →
      gamecardGetCapacityFromRomSizeValue env.header.rom_size = 0 →
      gamecardLoadInfo env s = freedCacheState s.inserted) := by
  refine ⟨rfl, rfl, rfl, rfl, rfl, rfl, ?_, ?_⟩
  · intro b h1 h2 h3 h4 h5 h6
    simp only [gamecardGetCapacityFromRomSizeValue, GameCardRomSize_1GiB,
      GameCardRomSize_2GiB, GameCardRomSize_4GiB, GameCardRomSize_8GiB,
      GameCardRomSize_16GiB, GameCardRomSize_32GiB]
    split_ifs <;> simp_all
  · intro env s hload hcap
    simp only [gamecardLoadInfo, hload, Bool.false_eq_true, if_false]
    cases h1 : env.getSizesOk
    · rfl
    · cases h2 : env.headerReadOk
      · rfl
      · cases h3 : bswap32 env.header.magic != GAMECARD_HEAD_MAGIC
        · simp only [hcap]; rfl
        · rfl

/-- C2 witness: the capacity table applied at the unrecognized byte
0x13 and a concrete load with that rom_size ending fully freed. -/
theorem C2_capacity_table_witness :
    gamecardGetCapacityFromRomSizeValue 0x13 = 0 ∧
    gamecardLoadInfo
      ⟨true, 1, 1, true, ⟨0, 0x13, 0, 0, 0⟩, false, true, true, ⟨0, 0, 0⟩,
        fun _ => ⟨0, 0, 0⟩, true, fun _ => true, fun _ => ⟨0, 0, 0⟩,
        fun _ => true, fun _ => true⟩
      ⟨true, false, zeroGCHeader, 1, 2, 3, false, false, false, 0, 0⟩ =
      freedCacheState true :=
  ⟨C2_capacity_table.2.2.2.2.2.2.1 0x13 (by decide) (by decide) (by decide)
      (by decide) (by decide) (by decide),
   C2_capacity_table.2.2.2.2.2.2.2
      ⟨true, 1, 1, true, ⟨0, 0x13, 0, 0, 0⟩, false, true, true, ⟨0, 0, 0⟩,
        fun _ => ⟨0, 0, 0⟩, true, fun _ => true, fun _ => ⟨0, 0, 0⟩,
        fun _ => true, fun _ => true⟩
      ⟨true, false, zeroGCHeader, 1, 2, 3, false, false, false, 0, 0⟩
      rfl (by decide)⟩

/-- C6 counterexample: in the session state "card inserted, info not
loaded, gamecard handle open", `gamecardIsReady` is false yet
`gamecardGetCertificate` (with a succeeding device-operator call and a
non-NULL out pointer) returns true — the certificate accessor is not
guarded by the info-loaded flag. -/
theorem C6_counterexample :
    gamecardIsReady ⟨true, false, 1, 0, 0, 0, 0⟩ = false ∧
    gamecardGetCertificate ⟨true, false, 1, 0, 0, 0, 0⟩ false true = true ∧
    gamecardGetBundledFirmwareUpdateVersion ⟨true, false, 1, 0, 0, 0, 0⟩ false true
      GAMECARD_UPDATE_TID = true := by decide

/-- C6 (amended): `gamecardIsReady` is inserted AND info-loaded;
`gamecardGetHeader`, `gamecardGetTotalSize`, `gamecardGetTrimmedSize`
and `gamecardGetRomCapacity` fail whenever no card is ready;
`gamecardGetCertificate` and `gamecardGetBundledFirmwareUpdateVersion`
are guarded by card-inserted and a non-zero gamecard handle instead,
and fail whenever no card is inserted. -/
theorem C6_accessors_guarded (s : GcSessionState) (outNull rcOk : Bool) (uid : Nat)
    (h : gamecardIsReady s = false) :
    gamecardIsReady s = (s.inserted && s.infoLoaded) ∧
    gamecardGetHeader s outNull = false ∧
    gamecardGetTotalSize s outNull = none ∧
    gamecardGetTrimmedSize s outNull = none ∧
    gamecardGetRomCapacity s outNull = none ∧
    (s.inserted = false →
      gamecardGetCertificate s outNull rcOk = false ∧
      gamecardGetBundledFirmwareUpdateVersion s outNull rcOk uid = false) := by
  have h' : (s.inserted && s.infoLoaded) = false := h
  refine ⟨rfl, ?_, ?_, ?_, ?_, ?_⟩
  · simp only [gamecardGetHeader, h', Bool.false_and]
  · simp only [gamecardGetTotalSize, h', Bool.false_and, Bool.false_eq_true, if_false]
  · simp only [gamecardGetTrimmedSize, h', Bool.false_and, Bool.false_eq_true, if_false]
  · simp only [gamecardGetRomCapacity, h', Bool.false_and, Bool.false_eq_true, if_false]
  · intro hi
    simp only [gamecardGetCertificate, gamecardGetBundledFirmwareUpdateVersion, hi,
      Bool.false_and, Bool.false_eq_true, if_false, and_self]

/-- C6 witness: the amended theorem applied at a concrete not-ready
state. -/
theorem C6_accessors_guarded_witness :
    gamecardGetHeader ⟨true, false, 1, 3, 4, 5, 6⟩ false = false ∧
    gamecardGetTotalSize ⟨true, false, 1, 3, 4, 5, 6⟩ false = none := by
  have h := C6_accessors_guarded ⟨true, false, 1, 3, 4, 5, 6⟩ false true 0 (by decide)
  exact ⟨h.2.1, h.2.2.1⟩

/-- C9: a second `gamecardInitialize` call after a successful one
returns true at once and leaves the whole resource state unchanged
(no new allocation, no reopened operator/notifier, no second
detection thread). -/
theorem C9_initialize_idempotent (env : GcInitEnv) (s : GcInitState)
    (h : s.interfaceInit = true) :
    gamecardInitialize env s = (true, s) := by
  simp only [gamecardInitialize, h, if_true]

/-- C9 witness: idempotence at a concrete initialized state. -/
theorem C9_initialize_idempotent_witness :
    gamecardInitialize ⟨false, false, false, false, false⟩
      ⟨true, true, true, true, true, true, true, true⟩ =
      (true, ⟨true, true, true, true, true, true, true, true⟩) :=
  C9_initialize_idempotent _ _ rfl

/-- C10: `pfsGetEntryName` returns a name pointer exactly when the
context and header are valid, the entry pointer is non-NULL, its
`name_offset` lies inside the name table and the byte there is not
NUL; in particular it returns NULL in every invalid case and the
returned pointer always points inside the name table at a non-empty
string. -/
theorem C10_pfsGetEntryName_bounds (ctx : PfsCtx) (fs_entry : Option PfsEntry)
    (o : Nat) :
    pfsGetEntryName ctx fs_entry = some o ↔
      (ctx.ctxNull = false ∧ ctx.headerNull = false ∧ ctx.header_size ≠ 0 ∧
       ctx.entry_count ≠ 0 ∧ fs_entry = some ⟨o⟩ ∧
       o < ctx.name_table_size ∧ ctx.tableByte o ≠ 0) := by
  cases fs_entry with
  | none =>
    simp only [pfsGetEntryName]
    constructor
    · intro h
      split_ifs at h
    · rintro ⟨-, -, -, -, h, -⟩
      cases h
  | some e =>
    by_cases hz : pfsGetEntryCount ctx = 0
    · have hnt : pfsGetNameTable ctx = false := by
        simp [pfsGetNameTable, hz]
      simp only [pfsGetEntryName, hnt, Bool.not_false, if_true]
      constructor
      · intro h
        cases h
      · rintro ⟨hc, hh, hs, hcount, -, -⟩
        exfalso
        simp only [pfsGetEntryCount, hc, hh, Bool.or_false, Bool.false_or] at hz
        rw [if_neg (by simpa using hs)] at hz
        exact hcount hz
    · have hnt : pfsGetNameTable ctx = true := by
        simp [pfsGetNameTable, hz]
      have hc : ctx.ctxNull = false := by
        by_contra hcc
        simp only [Bool.not_eq_false] at hcc
        simp [pfsGetEntryCount, hcc] at hz
      have hh : ctx.headerNull = false := by
        by_contra hcc
        simp only [Bool.not_eq_false] at hcc
        simp [pfsGetEntryCount, hcc] at hz
      have hs : ctx.header_size ≠ 0 := by
        intro hcc
        simp [pfsGetEntryCount, hcc] at hz
      have hcount : ctx.entry_count ≠ 0 := by
        intro hcc
        simp [pfsGetEntryCount, hcc] at hz
      simp only [pfsGetEntryName, hnt, Bool.not_true, Bool.false_eq_true, if_false]
      constructor
      · intro h
        split_ifs at h with h2 h3
        cases h
        exact ⟨hc, hh, hs, hcount, rfl, by omega, by simpa using h3⟩
      · rintro ⟨-, -, -, -, hsome, h5, h6⟩
        injection hsome with hsome
        subst hsome
        rw [if_neg (by simpa using Nat.not_le.mpr h5), if_neg (by simpa using h6)]

/-- C10 witness: the characterization applied at a concrete context
with a valid entry. -/
theorem C10_pfsGetEntryName_bounds_witness :
    pfsGetEntryName ⟨false, false, 0x20, 1, 5, fun i => if i < 4 then 0x61 else 0⟩
      (some ⟨2⟩) = some 2 :=
  (C10_pfsGetEntryName_bounds _ _ 2).mpr (by refine ⟨rfl, rfl, ?_, ?_, rfl, ?_, ?_⟩ <;> decide)

/-- C8: `gamecardReadStorageArea` rejects a zero-size read or a NULL
output buffer up front: it returns false, leaves the output buffer and
scratch buffer untouched, and issues no storage read, regardless of
offset and card state. -/
theorem C8_zero_size_or_null_rejected (gc : GcCard) (outNull : Bool)
    (out buf : Nat → Nat) (outPos read_size offset fuel : Nat)
    (h : read_size = 0 ∨ outNull = true) :
    gamecardReadStorageArea gc outNull out buf outPos read_size offset (fuel + 1) =
      (false, out, buf, 0) := by
  rcases h with h | h <;> subst h <;> simp [gamecardReadStorageArea]

/-- C8 witness: a zero-size in-bounds read on a ready card is
rejected with no storage read issued. -/
theorem C8_zero_size_or_null_rejected_witness :
    gamecardReadStorageArea ⟨true, 0x200, 0x200, fun _ => 3, fun _ => 4⟩ false
      (fun _ => 0) (fun _ => 0) 0 0 0x80 7 =
      (false, fun _ => 0, fun _ => 0, 0) :=
  C8_zero_size_or_null_rejected _ _ _ _ _ _ _ _ (Or.inl rfl)

/-- C4 counterexample: with normal+secure = 0x400 bytes, the request
`offset = 1, read_size = 2^64 - 1` has exact sum `2^64 > 0x400` (out
of bounds), yet `gamecardReadStorageArea` returns true: the bounds
check computes `offset + read_size` in wrapping u64 arithmetic, which
yields 0 here, so the claim that every out-of-bounds request is
rejected even under u64 wraparound is false. -/
theorem C4_counterexample :
    0x400 < 1 + (U64 - 1) ∧
    (gamecardReadStorageArea ⟨true, 0x200, 0x200, fun _ => 0, fun _ => 0⟩ false
      (fun _ => 0) (fun _ => 0) 0 (U64 - 1) 1 2).1 = true := by
  constructor
  · decide
  · rfl

/-- C4 (amended): `gamecardReadStorageArea` returns false and writes
nothing (no output bytes, no scratch-buffer change, no storage read)
whenever `offset >= normal + secure` or the wrapping u64 sum
`(offset + read_size) mod 2^64` exceeds `normal + secure`; a sum that
wraps past 2^64 back into bounds is not rejected by this check. -/
theorem C4_bounds_check_wrapping (gc : GcCard) (outNull : Bool)
    (out buf : Nat → Nat) (outPos read_size offset fuel : Nat)
    (h : add64 gc.normalSize gc.secureSize ≤ offset ∨
      add64 gc.normalSize gc.secureSize < add64 offset read_size) :
    gamecardReadStorageArea gc outNull out buf outPos read_size offset (fuel + 1) =
      (false, out, buf, 0) := by
  rcases h with h | h <;>
    simp [gamecardReadStorageArea, decide_eq_true h]

/-- C4 witness: an offset right at the end of the combined area is
rejected with nothing written. -/
theorem C4_bounds_check_wrapping_witness :
    gamecardReadStorageArea ⟨true, 0x200, 0x200, fun _ => 3, fun _ => 4⟩ false
      (fun _ => 0) (fun _ => 0) 0 0x10 0x400 1 =
      (false, fun _ => 0, fun _ => 0, 0) :=
  C4_bounds_check_wrapping _ _ _ _ _ _ _ _ (Or.inl (by decide))

/-- The probe loop issues at most `remaining` open attempts. -/
theorem gamecardGetHandleLoop_count_le (env : GetHandleEnv) :
    ∀ (remaining handle : Nat) (rc2Ok : Bool) (i : Nat),
      (gamecardGetHandleLoop env handle rc2Ok i remaining).2.2.2 ≤ remaining := by
  intro remaining
  induction remaining with
  | zero => intro h r i; simp [gamecardGetHandleLoop]
  | succ n ih =>
    intro h r i
    simp only [gamecardGetHandleLoop]
    split_ifs with h1 h2
    · simp
    · have := ih (env.newHandle i) (env.getOk i) (i + 1)
      simp
      omega
    · have := ih 0 (env.getOk i) (i + 1)
      simp
      omega

/-- If every probe in the window fails, the loop ends with `rc1`
failed. -/
theorem gamecardGetHandleLoop_all_fail (env : GetHandleEnv) :
    ∀ (remaining handle : Nat) (rc2Ok : Bool) (i : Nat),
      (∀ j, i ≤ j → j < i + remaining → env.openOk j = false) →
      (gamecardGetHandleLoop env handle rc2Ok i remaining).1 = false := by
  intro remaining
  induction remaining with
  | zero => intro h r i _; simp [gamecardGetHandleLoop]
  | succ n ih =>
    intro h r i hall
    simp only [gamecardGetHandleLoop, hall i (Nat.le_refl i) (by omega),
      Bool.false_eq_true, if_false]
    exact ih _ (env.getOk i) (i + 1) (fun j hj1 hj2 => hall j (by omega) (by omega))

/-- C7: `gamecardGetHandle` issues at most 10 open attempts, returns
false immediately when no card is inserted, and — when all 10 attempts
fail — returns false with the leftover handle closed (handle value
0). -/
theorem C7_getHandle_retry_policy (inserted : Bool) (handle : Nat)
    (env : GetHandleEnv) :
    (gamecardGetHandle inserted handle env).2.2 ≤ 10 ∧
    (inserted = false → gamecardGetHandle inserted handle env = (false, handle, 0)) ∧
    (inserted = true → (∀ i, i < 10 → env.openOk i = false) →
      (gamecardGetHandle inserted handle env).1 = false ∧
      (gamecardGetHandle inserted handle env).2.1 = 0) := by
  refine ⟨?_, ?_, ?_⟩
  · have := gamecardGetHandleLoop_count_le env 10 handle true 0
    simp only [gamecardGetHandle]
    split_ifs <;> simp_all
  · intro h
    simp [gamecardGetHandle, h]
  · intro hins hall
    have h1 := gamecardGetHandleLoop_all_fail env 10 handle true 0
      (fun j _ hj2 => hall j (by omega))
    simp [gamecardGetHandle, hins, h1]

/-- C7 witness: the policy at a concrete always-failing environment
and at a concrete not-inserted call. -/
theorem C7_getHandle_retry_policy_witness :
    gamecardGetHandle false 7 ⟨fun _ => false, fun _ => false, fun _ => 0⟩ =
      (false, 7, 0) ∧
    (gamecardGetHandle true 5 ⟨fun _ => false, fun _ => false, fun _ => 0⟩).1 = false ∧
    (gamecardGetHandle true 5 ⟨fun _ => false, fun _ => false, fun _ => 0⟩).2.1 = 0 :=
  ⟨(C7_getHandle_retry_policy false 7 _).2.1 rfl,
   ((C7_getHandle_retry_policy true 5 _).2.2 rfl (fun _ _ => rfl)).1,
   ((C7_getHandle_retry_policy true 5 _).2.2 rfl (fun _ _ => rfl)).2⟩

/-- C3 counterexample: a blob whose single entry is named "UPDATE"
and the query "update".  The entry is a case-insensitive prefix match
(`ciEntryMatch`), yet `gamecardGetHashFileSystemEntryIndexByName`
fails: its comparison is `strncmp`, which is case-sensitive, so the
claim that this lookup is case-insensitive (and fails only if no
entry matches) is false. -/
theorem C3_counterexample :
    gamecardGetHashFileSystemEntryIndexByName c3blob false c3query false = none ∧
    ciEntryMatch c3blob c3query 0 ∧ c3blob.entry_count = 1 := by
  refine ⟨by decide, by decide, rfl⟩

/-- C3 (amended): both lookups are length-bounded prefix matches with
first-match-wins in entry order, failing only when no entry matches —
but `gamecardGetHashFileSystemEntryIndexByName` (part_000) compares
case-SENSITIVELY via `strncmp` with no name-offset bound, while
`gamecardGetOffsetAndSizeFromHashFileSystemPartitionEntryByName`
(gamecard.c) compares case-insensitively via `strncasecmp`, skipping
entries whose name offset lies outside the name table. -/
theorem C3_name_lookup_semantics
    (hblob : HfsBlob) (q : List Nat)
    (s : GcSessionState) (root : HfsBlob) (parts : Nat → GcPartInfo × HfsBlob)
    (ty pidx : Nat) (outOffNull outSizeNull : Bool)
    (hq0 : 0 ∉ q) (hqne : q ≠ [])
    (hh : hblob.headerNull = false)
    (hins : s.inserted = true) (hload : s.infoLoaded = true)
    (houts : (outOffNull && outSizeNull) = false)
    (hpart : gamecardGetHashFileSystemPartitionIndexByType root ty false = some pidx)
    (hph : (parts pidx).2.headerNull = false)
    (hpc : (parts pidx).2.entry_count ≠ 0) :
    (∀ j, j < hblob.entry_count → csEntryMatch hblob q j →
        (∀ k, k < j → ¬csEntryMatch hblob q k) →
        gamecardGetHashFileSystemEntryIndexByName hblob false q false = some j) ∧
    ((∀ j, j < hblob.entry_count → ¬csEntryMatch hblob q j) →
        gamecardGetHashFileSystemEntryIndexByName hblob false q false = none) ∧
    (∀ j, j < (parts pidx).2.entry_count → ciEntryMatch (parts pidx).2 q j →
        (∀ k, k < j → ¬ciEntryMatch (parts pidx).2 q k) →
        gamecardGetOffsetAndSizeFromHashFileSystemPartitionEntryByName s root parts ty
          false q outOffNull outSizeNull =
          some (add64 (add64 (parts pidx).1.offset (parts pidx).1.header_size)
            (((parts pidx).2.entries j).offset), ((parts pidx).2.entries j).size)) ∧
    ((∀ j, j < (parts pidx).2.entry_count → ¬ciEntryMatch (parts pidx).2 q j) →
        gamecardGetOffsetAndSizeFromHashFileSystemPartitionEntryByName s root parts ty
          false q outOffNull outSizeNull = none) := by
  have hql : (q.length == 0) = false := by
    simp only [beq_eq_false_iff_ne, ne_eq, List.length_eq_zero]
    exact hqne
  refine ⟨?_, ?_, ?_, ?_⟩
  · intro j hj hmatch hfirst
    have hcnt : (hblob.entry_count == 0) = false := by
      simp only [beq_eq_false_iff_ne, ne_eq]
      omega
    simp only [gamecardGetHashFileSystemEntryIndexByName,
      gamecardGetHashFileSystemNameTable, hh, hcnt, hql, Bool.false_or,
      Bool.or_false, Bool.not_false, Bool.true_and, bne_eq_false_iff_eq,
      Bool.not_eq_true', Bool.false_eq_true, if_false]
    rw [if_neg (by omega : ¬hblob.entry_count = 0), hfsFindEntryCS_eq,
      findFirstAux_some_iff]
    refine ⟨Nat.zero_le j, by omega,
      (strncmpIsZero_iff hblob.tableByte q hq0 _).mpr hmatch, ?_⟩
    intro k _ hk2
    exact Bool.eq_false_iff.mpr
      (fun hkk => hfirst k hk2 ((strncmpIsZero_iff hblob.tableByte q hq0 _).mp hkk))
  · intro hnone
    by_cases hcz : hblob.entry_count = 0
    · simp [gamecardGetHashFileSystemEntryIndexByName, hcz]
    · have hcnt : (hblob.entry_count == 0) = false := by
        simp only [beq_eq_false_iff_ne, ne_eq]
        exact hcz
      simp only [gamecardGetHashFileSystemEntryIndexByName,
        gamecardGetHashFileSystemNameTable, hh, hcnt, hql, Bool.false_or,
        Bool.or_false, Bool.not_false, Bool.true_and, bne_eq_false_iff_eq,
        Bool.not_eq_true', Bool.false_eq_true, if_false]
      rw [if_neg hcz, hfsFindEntryCS_eq, findFirstAux_none_iff]
      intro k _ hk2
      exact Bool.eq_false_iff.mpr
        (fun hkk => hnone k (by omega)
          ((strncmpIsZero_iff hblob.tableByte q hq0 _).mp hkk))
  · intro j hj hmatch hfirst
    have hfind : hfsFindEntryCI (parts pidx).2 q 0 (parts pidx).2.entry_count = some j := by
      rw [hfsFindEntryCI_eq, findFirstAux_some_iff]
      refine ⟨Nat.zero_le j, by omega, (ciStep_iff _ q j hph hpc hq0).mpr hmatch, ?_⟩
      intro k _ hk2
      exact Bool.eq_false_iff.mpr
        (fun hkk => hfirst k hk2 ((ciStep_iff _ q k hph hpc hq0).mp hkk))
    simp only [gamecardGetOffsetAndSizeFromHashFileSystemPartitionEntryByName,
      hins, hload, houts, hql, Bool.not_true, Bool.false_or, Bool.or_false,
      Bool.false_eq_true, if_false, hpart, hfind]
  · intro hnone
    have hfind : hfsFindEntryCI (parts pidx).2 q 0 (parts pidx).2.entry_count = none := by
      rw [hfsFindEntryCI_eq, findFirstAux_none_iff]
      intro k _ hk2
      exact Bool.eq_false_iff.mpr
        (fun hkk => hnone k (by omega) ((ciStep_iff _ q k hph hpc hq0).mp hkk))
    simp only [gamecardGetOffsetAndSizeFromHashFileSystemPartitionEntryByName,
      hins, hload, houts, hql, Bool.not_true, Bool.false_or, Bool.or_false,
      Bool.false_eq_true, if_false, hpart, hfind]

/-- C3 witness: the amended semantics at concrete blobs — a
case-sensitive match "update"/"update" found by the index lookup, and
a partition-entry lookup through the "secure" partition resolving the
entry's offset and size. -/
theorem C3_name_lookup_semantics_witness :
    gamecardGetHashFileSystemEntryIndexByName
      ⟨false, 1, 7, fun _ => ⟨0x111, 0x222, 0⟩, fun i => c3query.getD i 0⟩
      false c3query false = some 0 ∧
    gamecardGetOffsetAndSizeFromHashFileSystemPartitionEntryByName
      ⟨true, true, 0, 0, 0, 0, 0⟩
      ⟨false, 1, 7, fun _ => ⟨0, 0, 0⟩,
        fun i => [0x73, 0x65, 0x63, 0x75, 0x72, 0x65].getD i 0⟩
      (fun _ => (⟨0x1000, 0x200⟩, ⟨false, 1, 7, fun _ => ⟨0x10, 0x20, 0⟩,
        fun i => c3query.getD i 0⟩))
      3 false c3query false false = some (0x1210, 0x20) := by
  have h := C3_name_lookup_semantics
    ⟨false, 1, 7, fun _ => ⟨0x111, 0x222, 0⟩, fun i => c3query.getD i 0⟩ c3query
    ⟨true, true, 0, 0, 0, 0, 0⟩
    ⟨false, 1, 7, fun _ => ⟨0, 0, 0⟩,
      fun i => [0x73, 0x65, 0x63, 0x75, 0x72, 0x65].getD i 0⟩
    (fun _ => (⟨0x1000, 0x200⟩, ⟨false, 1, 7, fun _ => ⟨0x10, 0x20, 0⟩,
      fun i => c3query.getD i 0⟩))
    3 0 false false (by decide) (by decide) rfl rfl rfl rfl (by decide) rfl (by decide)
  exact ⟨h.1 0 (by decide) (by decide) (fun k hk => absurd hk (Nat.not_lt_zero k)),
         h.2.2.1 0 (by decide) (by decide) (fun k hk => absurd hk (Nat.not_lt_zero k))⟩

/-- C1: evaluating `gamecardReadStorageArea` at the failing input — an
unaligned 8 MiB read at absolute offset 0x201 (secure-area offset 1),
whose aligned block exceeds the scratch buffer, so the unaligned path
recurses.  The recursive call receives `base_offset + out_chunk_size`,
an offset relative to the secure area, but interprets it as an
absolute offset, so the final output byte is read from secure-area
offset 0x7FFE00 (value 0) instead of the logical byte at
`offset + 0x7FFFFF`, which is secure-area offset 0x800000 (value 7).
The read still reports success. -/
theorem C1_secure_area_recursion_bug :
    (gamecardReadStorageArea c1card false (fun _ => 255) (fun _ => 99) 0 0x800000 0x201 5).1
      = true ∧
    (gamecardReadStorageArea c1card false (fun _ => 255) (fun _ => 99) 0 0x800000 0x201 5).2.1
      0x7FFFFF = 0 ∧
    logicalByte c1card (0x201 + 0x7FFFFF) = 7 :=
  ⟨by decide, by decide, by decide⟩

/-- C5: `gamecardLoadInfo` returns at once when info is already
loaded; if any of the listed validation steps fails (header magic not
"HEAD", rom_size with no known capacity, root HFS0 magic mismatch,
zero entry count or name table size, computed root header size
exceeding the declared partition_fs_header_size) the session ends in
the fully freed "not ready" state — info-loaded flag false, header
zeroed, sizes and capacity zero, all heap buffers released, storage
closed; and the detection thread invokes the loader only on a
not-inserted → inserted transition, so a failed load is not retried
until the card is removed and reinserted. -/
theorem C5_loadInfo_failure_frees (env : GcLoadEnv) (s : GcCacheState) :
    (s.infoLoaded = true → gamecardLoadInfo env s = s) ∧
    (s.infoLoaded = false →
      (bswap32 env.header.magic ≠ GAMECARD_HEAD_MAGIC ∨
       gamecardGetCapacityFromRomSizeValue env.header.rom_size = 0 ∨
       bswap32 env.rootHfs.magic ≠ GAMECARD_HFS0_MAGIC ∨
       env.rootHfs.entry_count = 0 ∨
       env.rootHfs.name_table_size = 0 ∨
       env.header.partition_fs_header_size <
         sizeofHfsHeader + env.rootHfs.entry_count * sizeofHfsEntry
           + env.rootHfs.name_table_size) →
      gamecardLoadInfo env s = freedCacheState s.inserted) ∧
    (∀ prev ins, gamecardDetectionStep prev ins = .load ↔ (prev = false ∧ ins = true)) := by
  refine ⟨?_, ?_, ?_⟩
  · intro h
    simp [gamecardLoadInfo, h]
  · intro hload H
    simp only [gamecardLoadInfo, hload, Bool.false_eq_true, if_false]
    cases h1 : env.getSizesOk
    all_goals try rfl
    all_goals cases h2 : env.headerReadOk
    all_goals try rfl
    all_goals cases h3 : bswap32 env.header.magic != GAMECARD_HEAD_MAGIC
    all_goals try rfl
    all_goals cases h4 : gamecardGetCapacityFromRomSizeValue env.header.rom_size == 0
    all_goals try rfl
    all_goals cases h5 : env.cfwIsSXOS
    all_goals cases h6 : env.rootAllocOk
    all_goals try rfl
    all_goals cases h7 : env.rootReadOk
    all_goals try rfl
    all_goals cases h8 : bswap32 env.rootHfs.magic != GAMECARD_HFS0_MAGIC
    all_goals try rfl
    all_goals cases h9 : env.rootHfs.entry_count == 0 || env.rootHfs.name_table_size == 0
      || decide (sizeofHfsHeader + env.rootHfs.entry_count * sizeofHfsEntry
          + env.rootHfs.name_table_size > env.header.partition_fs_header_size)
    all_goals try rfl
    all_goals cases h10 : env.partsAllocOk
    all_goals try rfl
    all_goals cases h11 : gamecardLoadPartitionsLoop env 0 env.rootHfs.entry_count
    all_goals try rfl
    all_goals exfalso
    all_goals simp only [Bool.or_eq_false_iff, beq_eq_false_iff_ne, ne_eq,
      decide_eq_false_iff_not, bne_eq_false_iff_eq] at h3 h4 h8 h9
    all_goals rcases H with H | H | H | H | H | H
    all_goals omega
  · intro prev ins
    constructor
    · intro h
      cases prev <;> cases ins <;> simp_all [gamecardDetectionStep]
    · rintro ⟨rfl, rfl⟩
      rfl

/-- C5 witness: a concrete load whose header magic is invalid ends in
the freed state, and the detection step loads only on insertion. -/
theorem C5_loadInfo_failure_frees_witness :
    gamecardLoadInfo
      ⟨true, 1, 1, true, ⟨0, 0, 0, 0, 0⟩, false, true, true, ⟨0, 0, 0⟩,
        fun _ => ⟨0, 0, 0⟩, true, fun _ => true, fun _ => ⟨0, 0, 0⟩,
        fun _ => true, fun _ => true⟩
      ⟨true, false, zeroGCHeader, 5, 6, 7, true, true, true, 3, 1⟩ =
      freedCacheState true ∧
    gamecardDetectionStep false true = GcDetectAction.load := by
  have h := C5_loadInfo_failure_frees
    ⟨true, 1, 1, true, ⟨0, 0, 0, 0, 0⟩, false, true, true, ⟨0, 0, 0⟩,
      fun _ => ⟨0, 0, 0⟩, true, fun _ => true, fun _ => ⟨0, 0, 0⟩,
      fun _ => true, fun _ => true⟩
    ⟨true, false, zeroGCHeader, 5, 6, 7, true, true, true, 3, 1⟩
  exact ⟨h.2.1 rfl (Or.inl (by decide)), (h.2.2 false true).mpr ⟨rfl, rfl⟩⟩

end NxGamecard
